import Mathlib

/-!
# Shallow embedding of the web3Economy-Backend REST API

This file embeds the parts of the TypeScript/Express/Mongoose backend that the
verified claims are about:

* the administrator credential store and its controller
  (`src/controllers/adminController.ts`, `src/models/Admin.ts`),
* the JWT token service and the authorization middleware
  (`src/middleware` auth file),
* slug generation (the `slugify` package with `{lower: true, strict: true}`,
  the Mongoose pre-save hooks of the Blog / Resource / Showcase schemas, and
  the explicit collision-retry loop of `createResource`),
* the blog, showcase, resource and newsletter controllers
  (`src/controllers/blogController.ts`, `src/controllers/eventController.ts`).

Conventions of the embedding:

* Time is a natural number of seconds (JWT `expiresIn: 604800` is in seconds).
* MongoDB collections are Lean lists; `findOne` is `List.find?`, so document
  order models the natural order of the collection.
* `bcryptjs` is modelled by an injective one-way map `bcryptHash` ignoring the
  salt: `compare(p, h)` holds exactly when `h` is the hash of `p`.  This models
  soundness and completeness of bcrypt verification on distinct inputs.
* JWT tokens are kept structured (payload + signature); the HTTP transport
  encoding of a token into a header string is abstracted away.  `jwtVerify`
  checks the signature before the expiry, as the `jsonwebtoken` library does.
* Fire-and-forget e-mail dispatch is out of scope (spec section 1 treats the
  mail transport as an external collaborator); the handlers are modelled
  without it, which does not affect any claim.
* Mongoose runs document middleware (pre-save hooks) on `Document.save`
  but not on `findByIdAndUpdate`.  On a freshly constructed document every
  path assigned through the constructor is marked modified, so
  the title-modified check is `true` during the first save of a document
  created with a title.  The embedding threads this `titleModified` flag
  explicitly.
-/

namespace Web3Backend

/-! ## JSON values and the HTTP response envelope -/

/-- JSON values, used for response bodies. -/
inductive Json where
  | str (s : String)
  | num (n : Int)
  | bool (b : Bool)
  | null
  | arr (elems : List Json)
  | obj (fields : List (String × Json))

/-- Look up a top-level field of a JSON object. -/
def Json.get? : Json → String → Option Json
  | .obj fields, k => fields.lookup k
  | _, _ => none

mutual

/-- Does a key occur anywhere (recursively) in a JSON value? -/
def Json.hasKey : Json → String → Bool
  | .obj fields, k => Json.hasKeyFields fields k
  | .arr elems, k => Json.hasKeyArr elems k
  | _, _ => false

/-- `Json.hasKey` over the field list of an object. -/
def Json.hasKeyFields : List (String × Json) → String → Bool
  | [], _ => false
  | (k₀, v) :: rest, k => k₀ == k || Json.hasKey v k || Json.hasKeyFields rest k

/-- `Json.hasKey` over the elements of an array. -/
def Json.hasKeyArr : List Json → String → Bool
  | [], _ => false
  | v :: rest, k => Json.hasKey v k || Json.hasKeyArr rest k

end

mutual

/-- All string leaves of a JSON value. -/
def Json.leafStrings : Json → List String
  | .str s => [s]
  | .obj fields => Json.leafStringsFields fields
  | .arr elems => Json.leafStringsArr elems
  | _ => []

/-- `Json.leafStrings` over the field list of an object. -/
def Json.leafStringsFields : List (String × Json) → List String
  | [] => []
  | (_, v) :: rest => Json.leafStrings v ++ Json.leafStringsFields rest

/-- `Json.leafStrings` over the elements of an array. -/
def Json.leafStringsArr : List Json → List String
  | [] => []
  | v :: rest => Json.leafStrings v ++ Json.leafStringsArr rest

end

/-- An HTTP response: status code, extra headers, JSON body. -/
structure HttpResponse where
  status : Nat
  headers : List (String × String) := []
  body : Json

/-- The uniform failure envelope `{success: false, error: {code, message}}`. -/
def errorBody (code message : String) : Json :=
  .obj [("success", .bool false),
        ("error", .obj [("code", .str code), ("message", .str message)])]

/-- A failure response with the uniform envelope. -/
def errResp (status : Nat) (code message : String) : HttpResponse :=
  { status := status, body := errorBody code message }

/-- The error code of a response body, when it has the failure envelope. -/
def HttpResponse.errorCode (r : HttpResponse) : Option Json :=
  match r.body.get? "error" with
  | some e => e.get? "code"
  | none => none

/-- `String.toLowerCase()` (the Lean core `String.toLower` is defined by
well-founded recursion, which the kernel cannot evaluate; this equivalent
maps `Char.toLower` over the character list). -/
def lowerString (s : String) : String :=
  String.mk (s.data.map Char.toLower)

/-- The number of maximal whitespace runs in a character list; the flag says
whether the previous character was whitespace. -/
def wsRuns : List Char → Bool → Nat
  | [], _ => 0
  | c :: rest, inRun =>
    if c.isWhitespace then (if inRun then 0 else 1) + wsRuns rest true
    else wsRuns rest false

/-- The field count of the JavaScript `content.split(/\s+/)`: one more than
the number of maximal whitespace runs. -/
def splitWsFieldCount (s : String) : Nat :=
  wsRuns s.data false + 1

/-! ## Password hasher (bcryptjs, cost factor 12) -/

/-- Model of the bcryptjs salted hash (cost 12).  The salt is abstracted
away; the map is injective, so `bcryptCompare` is sound and complete on
distinct plaintexts, which is what the code assumes of bcrypt. -/
def bcryptHash (plaintext : String) : String :=
  "bcrypt12$" ++ plaintext

/-- Model of `bcrypt.compare(plaintext, digest)`. -/
def bcryptCompare (plaintext digest : String) : Bool :=
  digest == bcryptHash plaintext

/-! ## Token service (jsonwebtoken) -/

/-- The payload of a signed token: subject id and email plus issued-at and
expiry timestamps (seconds). -/
structure JwtPayload where
  id : String
  email : String
  iat : Nat
  exp : Nat
deriving Repr, DecidableEq

/-- Model of the HMAC signature over a payload. -/
def jwtMac (secret : String) (p : JwtPayload) : String :=
  "mac$" ++ secret ++ "$" ++ p.id ++ "$" ++ p.email ++ "$" ++
    toString p.iat ++ "$" ++ toString p.exp

/-- A token as presented to the verifier: either structurally well formed
(payload plus signature) or malformed. -/
inductive Token where
  | signed (payload : JwtPayload) (sig : String)
  | malformed (raw : String)
deriving Repr, DecidableEq

/-- `jwt.sign({id, email}, secret, {expiresIn: 604800})` at time `now`:
a token with a fixed 7-day (604800 s) expiry from issuance. -/
def jwtSign (id email secret : String) (now : Nat) : Token :=
  .signed ⟨id, email, now, now + 604800⟩ (jwtMac secret ⟨id, email, now, now + 604800⟩)

/-- Outcome of `jwt.verify`. -/
inductive VerifyResult where
  | ok (payload : JwtPayload)
  | expired
  | invalid
deriving Repr, DecidableEq

/-- Model of `jwt.verify(token, secret)` at time `now`: malformed structure or
a bad signature fail as invalid (the library checks the signature first);
afterwards the token is expired when `now` has reached the embedded expiry. -/
def jwtVerify (t : Token) (secret : String) (now : Nat) : VerifyResult :=
  match t with
  | .malformed _ => .invalid
  | .signed p sig =>
    if sig ≠ jwtMac secret p then .invalid
    else if p.exp ≤ now then .expired
    else .ok p

/-- String rendering of a token, used where a handler embeds the token in a
JSON body.  Transport decoding back into a `Token` is abstracted away. -/
def tokenRepr : Token → String
  | .signed p sig =>
      "jwt$" ++ p.id ++ "$" ++ p.email ++ "$" ++ toString p.iat ++ "$" ++
        toString p.exp ++ "$" ++ sig
  | .malformed raw => raw

/-! ## Administrator credential store (`src/models/Admin.ts`) -/

/-- An administrator record as stored (emails are stored lower-cased by the
schema; the controller also lower-cases before insert and lookup). -/
structure Admin where
  id : String
  email : String
  passwordHash : String
  name : String
  role : String
  createdAt : Nat := 0
  lastLoginAt : Option Nat := none
deriving Repr, DecidableEq

/-- `Admin.findOne({email})`. -/
def findAdminByEmail (admins : List Admin) (email : String) : Option Admin :=
  admins.find? (fun a => a.email == email)

/-- `Admin.findById(id)`. -/
def findAdminById (admins : List Admin) (id : String) : Option Admin :=
  admins.find? (fun a => a.id == id)

/-- The `AdminSchema` `toJSON` transform: every schema field is serialized,
then `_id` is replaced by `id` and `__v` and `passwordHash` are deleted.
A missing `lastLoginAt` is dropped, as `JSON.stringify` drops `undefined`. -/
def adminToJSON (a : Admin) : Json :=
  .obj ([("id", .str a.id), ("email", .str a.email), ("name", .str a.name),
         ("role", .str a.role), ("createdAt", .num a.createdAt)] ++
        (match a.lastLoginAt with
         | some t => [("lastLoginAt", Json.num t)]
         | none => []))

/-- The `admin` object the login / register handlers build by hand. -/
def adminPublicJson (a : Admin) : Json :=
  .obj [("id", .str a.id), ("email", .str a.email),
        ("name", .str a.name), ("role", .str a.role)]

/-! ## Admin controller (`src/controllers/adminController.ts`) -/

/-- `loginAdmin`: missing / empty credentials give 400; an unknown email or a
failing bcrypt comparison gives 401 INVALID_CREDENTIALS; otherwise the
last-login stamp is saved and a fresh 7-day token is returned together with
the public fields of the admin. -/
def loginAdmin (admins : List Admin) (secret : String) (now : Nat)
    (reqEmail reqPassword : Option String) : HttpResponse × List Admin :=
  match reqEmail, reqPassword with
  | some email, some password =>
    if email.isEmpty || password.isEmpty then
      (errResp 400 "MISSING_CREDENTIALS" "Email and password are required.", admins)
    else
      match findAdminByEmail admins (lowerString email) with
      | none =>
        (errResp 401 "INVALID_CREDENTIALS" "Invalid email or password.", admins)
      | some admin =>
        if bcryptCompare password admin.passwordHash then
          let admins₁ := admins.map fun a =>
            if a.id == admin.id then { a with lastLoginAt := some now } else a
          let token := jwtSign admin.id admin.email secret now
          ({ status := 200,
             body := .obj [("success", .bool true),
                           ("data", .obj [("token", .str (tokenRepr token)),
                                          ("admin", adminPublicJson admin)])] },
           admins₁)
        else
          (errResp 401 "INVALID_CREDENTIALS" "Invalid email or password.", admins)
  | _, _ =>
    (errResp 400 "MISSING_CREDENTIALS" "Email and password are required.", admins)

/-- `registerAdmin`: missing fields give 400; an existing record under the
lower-cased email gives 409 ADMIN_EXISTS and leaves the store unchanged;
otherwise a record with the hashed password is appended and 201 returned. -/
def registerAdmin (admins : List Admin) (freshId : String) (now : Nat)
    (reqEmail reqPassword reqName reqRole : Option String) :
    HttpResponse × List Admin :=
  match reqEmail, reqPassword, reqName with
  | some email, some password, some name =>
    if email.isEmpty || password.isEmpty || name.isEmpty then
      (errResp 400 "MISSING_FIELDS" "Email, password, and name are required.", admins)
    else
      match findAdminByEmail admins (lowerString email) with
      | some _ =>
        (errResp 409 "ADMIN_EXISTS" "An admin with this email already exists.", admins)
      | none =>
        let role := match reqRole with
          | some r => if r.isEmpty then "admin" else r
          | none => "admin"
        let admin : Admin :=
          { id := freshId, email := lowerString email,
            passwordHash := bcryptHash password,
            name := name, role := role, createdAt := now }
        ({ status := 201,
           body := .obj [("success", .bool true),
                         ("message", .str "Admin registered successfully"),
                         ("data", .obj [("admin", adminPublicJson admin)])] },
         admins ++ [admin])
  | _, _, _ =>
    (errResp 400 "MISSING_FIELDS" "Email, password, and name are required.", admins)

/-- `getCurrentAdmin`: serializes the resolved admin of the request context;
an absent context admin gives 401 AUTH_REQUIRED. -/
def getCurrentAdmin (ctxAdmin : Option Admin) : HttpResponse :=
  match ctxAdmin with
  | none => errResp 401 "AUTH_REQUIRED" "Authentication required."
  | some a =>
    { status := 200,
      body := .obj [("success", .bool true),
                    ("data", .obj ([("id", .str a.id), ("email", .str a.email),
                                    ("name", .str a.name), ("role", .str a.role),
                                    ("createdAt", .num a.createdAt)] ++
                                   (match a.lastLoginAt with
                                    | some t => [("lastLoginAt", Json.num t)]
                                    | none => []))) ] }

/-! ## Authorization middleware (`authenticateAdmin`) -/

/-- The `Authorization` header of a request: absent, present but not of the
`Bearer ` shape, or carrying a bearer token. -/
inductive AuthHeader where
  | missing
  | notBearer (raw : String)
  | bearer (tok : Token)
deriving Repr, DecidableEq

/-- Outcome of a middleware: either the request proceeds with the resolved
admin attached, or the middleware halts with a response. -/
inductive AuthOutcome where
  | proceed (admin : Admin)
  | halt (resp : HttpResponse)

/-- `authenticateAdmin`: no bearer header gives 401 AUTH_REQUIRED; an
unconfigured signing secret throws, caught as 500 AUTH_ERROR; an expired
token gives 401 TOKEN_EXPIRED; a bad signature or malformed token gives
401 INVALID_TOKEN; a verified subject id with no record gives 401
ADMIN_NOT_FOUND; otherwise the record is attached and the request proceeds. -/
def authenticateAdmin (admins : List Admin) (secret? : Option String) (now : Nat)
    (header : AuthHeader) : AuthOutcome :=
  match header with
  | .missing =>
    .halt (errResp 401 "AUTH_REQUIRED" "Authentication required. Please provide a valid token.")
  | .notBearer _ =>
    .halt (errResp 401 "AUTH_REQUIRED" "Authentication required. Please provide a valid token.")
  | .bearer tok =>
    match secret? with
    | none => .halt (errResp 500 "AUTH_ERROR" "An error occurred during authentication.")
    | some secret =>
      match jwtVerify tok secret now with
      | .expired =>
        .halt (errResp 401 "TOKEN_EXPIRED" "Your session has expired. Please log in again.")
      | .invalid =>
        .halt (errResp 401 "INVALID_TOKEN" "Invalid authentication token.")
      | .ok p =>
        match findAdminById admins p.id with
        | none =>
          .halt (errResp 401 "ADMIN_NOT_FOUND" "Admin account not found or has been deleted.")
        | some a => .proceed a

/-! ## Slug generation (`slugify` with `{lower: true, strict: true}`)

The `slugify` package maps the replacement character `-` to a space, filters
each character through the default removal set, then (strict mode) removes
every character that is not ASCII alphanumeric or whitespace, trims, replaces
whitespace runs by `-`, and finally lower-cases.  The strict keep-set is a
subset of the default keep-set, so the two per-character filters compose to
"keep ASCII alphanumerics and whitespace".  The transliteration
char-map for non-ASCII letters is not modelled: such characters are simply
removed, which is what strict mode does to any character the map misses. -/

/-- Whitespace in the sense of the `\s` character class (ASCII part). -/
def isSpaceChar (c : Char) : Bool :=
  c == ' ' || c == '\t' || c == '\n' || c == '\r' || c == '\x0b' || c == '\x0c'

/-- The composed per-character filter of the default removal regex and the
strict-mode removal regex: keep ASCII alphanumerics and whitespace. -/
def slugKeepChar (c : Char) : Bool :=
  c.isAlphanum || isSpaceChar c

/-- Replace every maximal run of whitespace by a single `-`; the flag says
whether the previous character was whitespace. -/
def collapseRuns : Bool → List Char → List Char
  | _, [] => []
  | prevSpace, c :: rest =>
    if isSpaceChar c then
      if prevSpace then collapseRuns true rest
      else '-' :: collapseRuns true rest
    else c :: collapseRuns false rest

/-- Drop leading and trailing whitespace characters. -/
def trimSpaceChars (cs : List Char) : List Char :=
  ((cs.dropWhile isSpaceChar).reverse.dropWhile isSpaceChar).reverse

/-- `slugify(s, {lower: true, strict: true})`. -/
def slugifyLowerStrict (s : String) : String :=
  let mapped := s.data.map fun c => if c == '-' then ' ' else c
  let kept := mapped.filter slugKeepChar
  String.mk ((collapseRuns false (trimSpaceChars kept)).map Char.toLower)

/-- The candidate sequence of the `createResource` collision loop:
`base`, `base-1`, `base-2`, … -/
def slugCandidate (base : String) : Nat → String
  | 0 => base
  | k + 1 => base ++ "-" ++ toString (k + 1)

/-- The collision loop of `createResource`: starting at candidate `k`, walk
the candidate sequence until a slug not present in `taken` is found (the
fuel bounds the walk; `findFreeSlug` supplies enough fuel to exhaust every
possible collision). -/
def findFreeSlugAux (taken : List String) (base : String) : Nat → Nat → String
  | 0, k => slugCandidate base k
  | fuel + 1, k =>
    if taken.contains (slugCandidate base k) then
      findFreeSlugAux taken base fuel (k + 1)
    else slugCandidate base k

/-- The slug the `createResource` collision loop assigns: the first candidate
in the order `base`, `base-1`, `base-2`, … that is not already taken. -/
def findFreeSlug (taken : List String) (base : String) : String :=
  findFreeSlugAux taken base (taken.length + 1) 0

/-! ## Blog store (`src/models/Blog.ts`, `src/controllers/blogController.ts`) -/

/-- Engagement statistics of a blog document. -/
structure BlogStats where
  views : Nat := 0
  likes : Nat := 0
  bookmarks : Nat := 0
deriving Repr, DecidableEq

/-- A blog document (the fields the embedded handlers touch). -/
structure Blog where
  id : String
  title : String
  slug : String
  excerpt : String := ""
  content : String := ""
  category : String := ""
  tags : List String := []
  featured : Bool := false
  published : Bool := false
  publishedDate : Nat := 0
  createdAt : Nat := 0
  updatedAt : Nat := 0
  readTime : String := ""
  stats : BlogStats := {}
deriving Repr, DecidableEq

/-- The two pre-save hooks of the Blog schema: regenerate the slug when it is
empty or the title path is modified, and derive `readTime` from the content
word count when `readTime` is empty and the content nonempty.  On a freshly
constructed document the title counts as modified. -/
def blogApplyPreSave (titleModified : Bool) (b : Blog) : Blog :=
  let b₁ := if b.slug.isEmpty || titleModified
    then { b with slug := slugifyLowerStrict b.title } else b
  if b₁.readTime.isEmpty && !b₁.content.isEmpty then
    { b₁ with readTime :=
        toString ((splitWsFieldCount b₁.content + 199) / 200) ++ " min read" }
  else b₁

/-- Serialize a blog document through the schema `toJSON` transform. -/
def blogJson (b : Blog) : Json :=
  .obj [("id", .str b.id), ("title", .str b.title), ("slug", .str b.slug),
        ("excerpt", .str b.excerpt), ("content", .str b.content),
        ("category", .str b.category),
        ("tags", .arr (b.tags.map Json.str)),
        ("featured", .bool b.featured), ("published", .bool b.published),
        ("publishedDate", .num b.publishedDate),
        ("createdAt", .num b.createdAt),
        ("updatedAt", .num b.updatedAt),
        ("readTime", .str b.readTime),
        ("stats", .obj [("views", .num b.stats.views),
                        ("likes", .num b.stats.likes),
                        ("bookmarks", .num b.stats.bookmarks)])]

/-- The list-view projection dropping `content`. -/
def blogListJson (b : Blog) : Json :=
  .obj [("id", .str b.id), ("title", .str b.title), ("slug", .str b.slug),
        ("excerpt", .str b.excerpt),
        ("category", .str b.category),
        ("tags", .arr (b.tags.map Json.str)),
        ("featured", .bool b.featured), ("published", .bool b.published),
        ("publishedDate", .num b.publishedDate),
        ("createdAt", .num b.createdAt),
        ("updatedAt", .num b.updatedAt),
        ("readTime", .str b.readTime),
        ("stats", .obj [("views", .num b.stats.views),
                        ("likes", .num b.stats.likes),
                        ("bookmarks", .num b.stats.bookmarks)])]

/-- Success envelope carrying only a message. -/
def msgBody (m : String) : Json :=
  .obj [("success", .bool true), ("message", .str m)]

/-! ## Blog controller handlers -/

/-- Query parameters of `getBlogs`.  The `$text` full-text `search` parameter
is delegated to the storage engine and not modelled; no claim involves it. -/
structure BlogQuery where
  category : Option String := none
  tag : Option String := none
  featured : Option Bool := none
  page : Nat := 1
  limit : Nat := 10

/-- The Mongo filter `getBlogs` builds: always `published: true`; a nonempty
category other than `all` matches case-insensitively; a nonempty tag must be
a member of `tags`; `featured` matches exactly when given. -/
def blogMatches (q : BlogQuery) (b : Blog) : Bool :=
  b.published &&
  (match q.category with
   | some c => c.isEmpty || c == "all" || lowerString b.category == lowerString c
   | none => true) &&
  (match q.tag with
   | some t => t.isEmpty || b.tags.contains t
   | none => true) &&
  (match q.featured with
   | some f => b.featured == f
   | none => true)

/-- The `sort({publishedDate: -1, createdAt: -1})` comparator: `a` precedes
`b` when it has the later published date, ties broken by creation date. -/
def blogSortLE (a b : Blog) : Bool :=
  b.publishedDate < a.publishedDate ||
    (b.publishedDate == a.publishedDate && decide (b.createdAt ≤ a.createdAt))

/-- Insert a blog into a list sorted by `blogSortLE`. -/
def insertByPubDate (x : Blog) : List Blog → List Blog
  | [] => [x]
  | y :: ys => if blogSortLE x y then x :: y :: ys else y :: insertByPubDate x ys

/-- The `sort({publishedDate: -1, createdAt: -1})` step: sort by the
comparator (a stable insertion sort; the claims depend on the result being a
permutation, not on the tie-breaking of the storage engine). -/
def sortBlogs : List Blog → List Blog
  | [] => []
  | x :: xs => insertByPubDate x (sortBlogs xs)

/-- `getBlogs`: filter, sort, `skip = (page-1)*limit`, take `limit`, with a
separate count over the same filter; surfaces total/page/limit as the
`X-Total-Count` / `X-Page` / `X-Limit` headers and reports
`hasMore = skip + returned < total`. -/
def getBlogs (store : List Blog) (q : BlogQuery) : HttpResponse :=
  let filtered := store.filter (blogMatches q)
  let total := filtered.length
  let skip := (q.page - 1) * q.limit
  let pageItems := ((sortBlogs filtered).drop skip).take q.limit
  { status := 200,
    headers := [("X-Total-Count", toString total),
                ("X-Page", toString q.page), ("X-Limit", toString q.limit)],
    body := .obj [("success", .bool true),
                  ("data", .obj [("posts", .arr (pageItems.map blogListJson)),
                                 ("total", .num total),
                                 ("page", .num q.page),
                                 ("limit", .num q.limit),
                                 ("hasMore", .bool (skip + pageItems.length < total))])] }

/-- `getBlogBySlug`: `findOne({slug, published: true})`; a hit increments
`stats.views` and saves the document — the save runs the pre-save hooks with
the title unmodified and, because the schema has `timestamps: true`, also
refreshes `updatedAt` — then returns it; a miss is a 404 with no state
change.  The timestamps step and the user hooks touch disjoint fields, so
they are folded into one record update. -/
def getBlogBySlug (store : List Blog) (now : Nat) (slug : String) :
    HttpResponse × List Blog :=
  match store.find? (fun b => b.slug == slug && b.published) with
  | none => (errResp 404 "NOT_FOUND" "Blog post not found.", store)
  | some b =>
    let b₁ := blogApplyPreSave false
      { b with stats := { b.stats with views := b.stats.views + 1 }, updatedAt := now }
    ({ status := 200,
       body := .obj [("success", .bool true), ("data", blogJson b₁)] },
     store.map fun x => if x.id == b.id then b₁ else x)

/-- `getBlogById`: a plain `findById` with no `published` filter. -/
def getBlogById (store : List Blog) (id : String) : HttpResponse :=
  match store.find? (fun b => b.id == id) with
  | none => errResp 404 "NOT_FOUND" "Blog post not found."
  | some b =>
    { status := 200, body := .obj [("success", .bool true), ("data", blogJson b)] }

/-- `createBlog`: constructs the document and saves it; the pre-save hooks run
with every set path (in particular the title) counting as modified, the
`timestamps: true` option stamps `createdAt` and `updatedAt`, and the
unique index on `slug` turns a collision into the catch-all 500. -/
def createBlog (store : List Blog) (freshId : String) (now : Nat) (draft : Blog) :
    HttpResponse × List Blog :=
  let b := blogApplyPreSave true
    { draft with id := freshId, createdAt := now, updatedAt := now }
  if store.any (fun x => x.slug == b.slug) then
    (errResp 500 "CREATE_ERROR" "Failed to create blog post.", store)
  else
    ({ status := 201,
       body := .obj [("success", .bool true), ("data", blogJson b),
                     ("message", .str "Blog post created successfully")] },
     store ++ [b])

/-- A partial update payload (`$set` semantics: only present fields are
written). -/
structure BlogUpdate where
  title : Option String := none
  slug : Option String := none
  excerpt : Option String := none
  content : Option String := none
  category : Option String := none
  tags : Option (List String) := none
  featured : Option Bool := none
  published : Option Bool := none
  publishedDate : Option Nat := none
  readTime : Option String := none

/-- Merge a `$set` payload into a document. -/
def applyBlogUpdate (u : BlogUpdate) (b : Blog) : Blog :=
  { b with
    title := u.title.getD b.title,
    slug := u.slug.getD b.slug,
    excerpt := u.excerpt.getD b.excerpt,
    content := u.content.getD b.content,
    category := u.category.getD b.category,
    tags := u.tags.getD b.tags,
    featured := u.featured.getD b.featured,
    published := u.published.getD b.published,
    publishedDate := u.publishedDate.getD b.publishedDate,
    readTime := u.readTime.getD b.readTime }

/-- `updateBlog`: a nonempty `title` in the payload overwrites the
`slug` with `slugify(title, {lower: true, strict: true})`; then
`findByIdAndUpdate(id, {$set: payload}, {new: true})` (no pre-save hooks run
on this path, but the `timestamps: true` option still refreshes `updatedAt`
on `findByIdAndUpdate`); the unique slug index turns a collision with
another document into the catch-all 500. -/
def updateBlog (store : List Blog) (id : String) (now : Nat) (u : BlogUpdate) :
    HttpResponse × List Blog :=
  let u₁ := match u.title with
    | some t => if t.isEmpty then u else { u with slug := some (slugifyLowerStrict t) }
    | none => u
  match store.find? (fun b => b.id == id) with
  | none => (errResp 404 "NOT_FOUND" "Blog post not found.", store)
  | some b =>
    let b₁ := { applyBlogUpdate u₁ b with updatedAt := now }
    if store.any (fun x => x.id != b.id && x.slug == b₁.slug) then
      (errResp 500 "UPDATE_ERROR" "Failed to update blog post.", store)
    else
      ({ status := 200,
         body := .obj [("success", .bool true), ("data", blogJson b₁),
                       ("message", .str "Blog post updated successfully")] },
       store.map fun x => if x.id == b.id then b₁ else x)

/-! ## Showcase store (`src/models` showcase schema, `eventController.ts`) -/

/-- Showcase statistics sub-document. -/
structure ShowcaseStats where
  stars : Nat := 0
  users : String := "0"
  tvl : String := "$0"
deriving Repr, DecidableEq

/-- A showcase project document (the fields the embedded handlers touch). -/
structure Showcase where
  id : String
  title : String
  slug : String
  description : String := ""
  category : String := ""
  creator : String := ""
  tags : List String := []
  stats : ShowcaseStats := {}
  featured : Bool := false
  trending : Bool := false
  published : Bool := false
  createdAt : Nat := 0
deriving Repr, DecidableEq

/-- Serialize a showcase document through the schema `toJSON` transform. -/
def showcaseJson (p : Showcase) : Json :=
  .obj [("id", .str p.id), ("title", .str p.title), ("slug", .str p.slug),
        ("description", .str p.description), ("category", .str p.category),
        ("creator", .str p.creator),
        ("tags", .arr (p.tags.map Json.str)),
        ("stats", .obj [("stars", .num p.stats.stars),
                        ("users", .str p.stats.users),
                        ("tvl", .str p.stats.tvl)]),
        ("featured", .bool p.featured), ("trending", .bool p.trending),
        ("published", .bool p.published), ("createdAt", .num p.createdAt)]

/-- `getShowcaseById`: a plain `findById` with no `published` filter. -/
def getShowcaseById (store : List Showcase) (id : String) : HttpResponse :=
  match store.find? (fun p => p.id == id) with
  | none => errResp 404 "NOT_FOUND" "Project not found."
  | some p =>
    { status := 200, body := .obj [("success", .bool true), ("data", showcaseJson p)] }

/-- `getShowcaseBySlug`: `findOne({slug, published: true})`. -/
def getShowcaseBySlug (store : List Showcase) (slug : String) : HttpResponse :=
  match store.find? (fun p => p.slug == slug && p.published) with
  | none => errResp 404 "NOT_FOUND" "Project not found."
  | some p =>
    { status := 200, body := .obj [("success", .bool true), ("data", showcaseJson p)] }

/-- `starProject`: `findByIdAndUpdate(id, {$inc: {stats.stars: 1}}, {new: true})`
— a single storage-level operation that increments the counter and yields the
post-increment document; an unknown id is a 404 with no state change. -/
def starProject (store : List Showcase) (id : String) : HttpResponse × List Showcase :=
  match store.find? (fun p => p.id == id) with
  | none => (errResp 404 "NOT_FOUND" "Project not found.", store)
  | some p =>
    let p₁ := { p with stats := { p.stats with stars := p.stats.stars + 1 } }
    ({ status := 200,
       body := .obj [("success", .bool true),
                     ("data", .obj [("stars", .num p₁.stats.stars)]),
                     ("message", .str "Project starred")] },
     store.map fun x => if x.id == p.id then p₁ else x)

/-! ## Resource store (`src/models` resource schema, `eventController.ts`) -/

/-- A resource document (the fields the embedded handlers touch). -/
structure Resource where
  id : String
  title : String
  slug : String
  description : String := ""
  category : String := ""
  level : String := ""
  downloads : Nat := 0
  featured : Bool := false
deriving Repr, DecidableEq

/-- The pre-save hook of the Resource schema: regenerate the slug when it is
empty or the title path is modified.  On a freshly constructed document the
title counts as modified. -/
def resourceApplyPreSave (titleModified : Bool) (r : Resource) : Resource :=
  if r.slug.isEmpty || titleModified
  then { r with slug := slugifyLowerStrict r.title } else r

/-- Serialize a resource document through the schema `toJSON` transform. -/
def resourceJson (r : Resource) : Json :=
  .obj [("id", .str r.id), ("title", .str r.title), ("slug", .str r.slug),
        ("description", .str r.description), ("category", .str r.category),
        ("level", .str r.level), ("downloads", .num r.downloads),
        ("featured", .bool r.featured)]

/-- The request body of `createResource`. -/
structure ResourceDraft where
  title : String
  slug : Option String := none
  description : String := ""
  category : String := ""
  level : String := ""
  featured : Bool := false

/-- `createResource`: derives a slug from the title when none is given, walks
the candidate sequence `slug`, `slug-1`, `slug-2`, … until one is free, then
constructs and saves the document.  The save runs the resource pre-save hook
with the title counting as modified (the document is new), and the unique
index on `slug` turns a collision of the final slug into the catch-all 500. -/
def createResource (store : List Resource) (freshId : String)
    (draft : ResourceDraft) : HttpResponse × List Resource :=
  let base := match draft.slug with
    | some s => if s.isEmpty then slugifyLowerStrict draft.title else s
    | none => slugifyLowerStrict draft.title
  let loopSlug := findFreeSlug (store.map (·.slug)) base
  let r := resourceApplyPreSave true
    { id := freshId, title := draft.title, slug := loopSlug,
      description := draft.description, category := draft.category,
      level := draft.level, featured := draft.featured }
  if store.any (fun x => x.slug == r.slug) then
    (errResp 500 "CREATE_ERROR" "Failed to create resource.", store)
  else
    ({ status := 201,
       body := .obj [("success", .bool true), ("data", resourceJson r),
                     ("message", .str "Resource created successfully")] },
     store ++ [r])

/-! ## Newsletter store (`src/models` subscriber schema, `eventController.ts`) -/

/-- A newsletter subscriber record. -/
structure Subscriber where
  id : String
  email : String
  source : String := "direct"
  status : String := "active"
  subscribedAt : Nat := 0
  unsubscribedAt : Option Nat := none
deriving Repr, DecidableEq

/-- The `/^\S+@\S+\.\S+$/` test of the subscribe handler: no whitespace
anywhere, an `@` preceded by at least one character, and a `.` at least two
positions after the `@` and before the final character. -/
def emailRegexMatches (s : String) : Bool :=
  let cs := s.data
  let n := cs.length
  cs.all (fun c => !c.isWhitespace) &&
    ((List.range n).any fun i =>
      decide (1 ≤ i) && cs.getD i ' ' == '@' &&
        ((List.range n).any fun j =>
          decide (i + 2 ≤ j) && decide (j + 2 ≤ n) && cs.getD j ' ' == '.'))

/-- `subscribe`: validates the email, then: an already-active subscriber gets
a 200 success with no mutation; an unsubscribed record is reactivated in
place (status, subscribed-at, cleared unsubscribed-at, source fallback); an
unknown email gets a fresh active record and a 201.  Best-effort welcome
mails are out of scope. -/
def subscribe (store : List Subscriber) (freshId : String) (now : Nat)
    (reqEmail reqSource : Option String) : HttpResponse × List Subscriber :=
  match reqEmail with
  | none => (errResp 400 "VALIDATION_ERROR" "Email is required.", store)
  | some email =>
    if email.isEmpty then
      (errResp 400 "VALIDATION_ERROR" "Email is required.", store)
    else if !emailRegexMatches email then
      (errResp 400 "VALIDATION_ERROR" "Please provide a valid email address.", store)
    else
      let nEmail := lowerString email
      match store.find? (fun x => x.email == nEmail) with
      | some sub =>
        if sub.status == "active" then
          ({ status := 200,
             body := msgBody "You are already subscribed to our newsletter." }, store)
        else
          let newSource := match reqSource with
            | some s => if s.isEmpty then sub.source else s
            | none => sub.source
          let sub₁ :=
            { sub with status := "active", subscribedAt := now,
                       unsubscribedAt := none, source := newSource }
          ({ status := 200,
             body := msgBody "Successfully re-subscribed to newsletter." },
           store.map fun x => if x.id == sub.id then sub₁ else x)
      | none =>
        let sub : Subscriber :=
          { id := freshId, email := nEmail,
            source := match reqSource with
              | some s => if s.isEmpty then "direct" else s
              | none => "direct",
            status := "active", subscribedAt := now }
        ({ status := 201,
           body := msgBody "Successfully subscribed to newsletter." },
         store ++ [sub])

/-- `unsubscribe`: a missing record is a 404 NOT_FOUND; an already
unsubscribed record is a 200 success with no mutation; an active record gets
status `unsubscribed` and an unsubscribed-at stamp.  The best-effort
confirmation mail is out of scope. -/
def unsubscribe (store : List Subscriber) (now : Nat) (reqEmail : Option String) :
    HttpResponse × List Subscriber :=
  match reqEmail with
  | none => (errResp 400 "VALIDATION_ERROR" "Email is required.", store)
  | some email =>
    if email.isEmpty then
      (errResp 400 "VALIDATION_ERROR" "Email is required.", store)
    else
      let nEmail := lowerString email
      match store.find? (fun x => x.email == nEmail) with
      | none =>
        (errResp 404 "NOT_FOUND" "Email not found in our newsletter list.", store)
      | some sub =>
        if sub.status == "unsubscribed" then
          ({ status := 200,
             body := msgBody "You are already unsubscribed from our newsletter." }, store)
        else
          let sub₁ := { sub with status := "unsubscribed", unsubscribedAt := some now }
          ({ status := 200,
             body := msgBody "Successfully unsubscribed from newsletter." },
           store.map fun x => if x.id == sub.id then sub₁ else x)

/-! ## Public route chains for get-by-id (blog and showcase routers)

The routers mount `GET /:id` behind the general rate limiter and a MongoId
parameter validation only — no authorization middleware — so the response is
computed without consulting the `Authorization` header at all. -/

/-- The id parameter validation (isMongoId): 24 hexadecimal characters. -/
def isMongoIdStr (s : String) : Bool :=
  s.length == 24 &&
    s.data.all fun c =>
      c.isDigit || ('a' ≤ c && c ≤ 'f') || ('A' ≤ c && c ≤ 'F')

/-- The `GET /api/blogs/:id` chain: id validation then `getBlogById`; the
`Authorization` header is never consulted. -/
def blogGetByIdRoute (_header : AuthHeader) (store : List Blog) (id : String) :
    HttpResponse :=
  if !isMongoIdStr id then errResp 400 "VALIDATION_ERROR" "Validation failed"
  else getBlogById store id

/-- The `GET /api/showcase/:id` chain: id validation then `getShowcaseById`;
the `Authorization` header is never consulted. -/
def showcaseGetByIdRoute (_header : AuthHeader) (store : List Showcase) (id : String) :
    HttpResponse :=
  if !isMongoIdStr id then errResp 400 "VALIDATION_ERROR" "Validation failed"
  else getShowcaseById store id

/-! ## Concrete fixtures used by the witness theorems -/

/-- The seeded administrator record of `scripts/seed.ts` (ids shortened to a
valid MongoId shape, time 0). -/
def seedAdmin : Admin :=
  { id := "aaaaaaaaaaaaaaaaaaaaaaaa", email := "admin@x.com",
    passwordHash := bcryptHash "Admin123!", name := "Admin User", role := "superadmin" }

/-- A published blog document fixture. -/
def wBlog : Blog :=
  { id := "bbbbbbbbbbbbbbbbbbbbbbbb", title := "Hello World", slug := "hello-world",
    excerpt := "intro", content := "hello world content", category := "News",
    tags := ["web3"], featured := true, published := true,
    publishedDate := 5, createdAt := 3, updatedAt := 3, readTime := "1 min read",
    stats := { views := 0, likes := 0, bookmarks := 0 } }

/-- A second published blog document fixture. -/
def wBlog2 : Blog :=
  { wBlog with
    id := "b2b2b2b2b2b2b2b2b2b2b2b2", slug := "second-post",
    title := "Second Post", publishedDate := 4, featured := false }

/-- A third published blog document fixture. -/
def wBlog3 : Blog :=
  { wBlog with
    id := "b3b3b3b3b3b3b3b3b3b3b3b3", slug := "third-post",
    title := "Third Post", publishedDate := 2, featured := false }

/-- An unpublished blog document fixture. -/
def wBlogUnpub : Blog :=
  { wBlog with
    id := "dddddddddddddddddddddddd", slug := "draft-post",
    title := "Draft Post", published := false }

/-- An unpublished showcase project fixture with zero stars. -/
def wShow : Showcase :=
  { id := "cccccccccccccccccccccccc", title := "Proj", slug := "proj",
    published := false, stats := { stars := 0, users := "0", tvl := "$0" } }

/-- An active newsletter subscriber fixture. -/
def wSub : Subscriber :=
  { id := "sub1", email := "user@mail.com", source := "direct",
    status := "active", subscribedAt := 1 }

/-- A stored resource fixture whose slug is the slugified form of its title. -/
def wResource : Resource :=
  { id := "r1r1r1r1r1r1r1r1r1r1r1r1", title := "GM", slug := "gm" }

/-- The required-string validators of the Blog schema on the fields the
embedded handlers touch: `slug`, `content` and `readTime` are all
`required` String paths, and Mongoose rejects an empty string for a required
String (on `save` and on `findByIdAndUpdate` with `runValidators: true`
alike), so every persisted blog satisfies this predicate. -/
def blogSchemaWF (b : Blog) : Bool :=
  !b.slug.isEmpty && !b.content.isEmpty && !b.readTime.isEmpty

/-- A blog draft for the create path (witnesses). -/
def wBlogDraft : Blog :=
  { id := "", title := "A Fresh Title", slug := "", excerpt := "x",
    content := "some content here", category := "News", readTime := "1 min read",
    published := true, publishedDate := 9, createdAt := 9 }

/-- A resource draft whose slugified title collides with `wResource`. -/
def wResourceDraft : ResourceDraft := { title := "GM" }

/-! ## Helper lemmas -/

/-- `bcryptHash` is injective. -/
theorem bcryptHash_inj {p q : String} (h : bcryptHash p = bcryptHash q) : p = q := by
  have hd := congrArg String.data h
  simp only [bcryptHash, String.data_append] at hd
  exact String.ext (List.append_cancel_left hd)

/-- Two strings with different head characters differ. -/
theorem ne_of_head_ne {s t : String} (h : s.data.head? ≠ t.data.head?) : s ≠ t :=
  fun he => h (he ▸ rfl)

/-- Replacing, in a list, some elements by a fixed `b` that satisfies the
search predicate keeps `find?` successful and makes it return `b`, provided
the original `find?` hit an element that is replaced by `b`. -/
theorem find?_map_replace {α : Type} {p : α → Bool} {f : α → α} {l : List α} {a b : α}
    (hfind : l.find? p = some a) (hb : p b = true)
    (hf : ∀ x, f x = x ∨ f x = b) (hfa : f a = b) :
    (l.map f).find? p = some b := by
  induction l with
  | nil => simp at hfind
  | cons x xs ih =>
    by_cases hx : p x = true
    · rw [List.find?_cons_of_pos _ hx] at hfind
      have hax : x = a := by injection hfind
      subst hax
      simp only [List.map_cons, hfa]
      exact List.find?_cons_of_pos _ hb
    · rw [List.find?_cons_of_neg _ (by simpa using hx)] at hfind
      rcases hf x with h | h
      · simp only [List.map_cons, h]
        rw [List.find?_cons_of_neg _ (by simpa using hx)]
        exact ih hfind
      · simp only [List.map_cons, h]
        exact List.find?_cons_of_pos _ hb

/-! ## C1 -/

/-- C1: for every seeded administrator record (a store entry `a` whose stored
hash is the bcrypt hash of `pw` and which the lower-cased login email
resolves to), `loginAdmin` with the matching password returns 200 with
`data.token` set (to the freshly signed 7-day token) and `data.admin.role`
present, and the same email with any non-matching password returns 401 with
error code INVALID_CREDENTIALS. -/
theorem C1_login_matching_and_wrong_password
    (admins : List Admin) (secret : String) (now : Nat) (a : Admin)
    (email pw pw' : String)
    (a_hit : findAdminByEmail admins (lowerString email) = some a)
    (hhash : a.passwordHash = bcryptHash pw)
    (hem : email.isEmpty = false) (hpw : pw.isEmpty = false)
    (hpw' : pw'.isEmpty = false) (hne : pw' ≠ pw) :
    (loginAdmin admins secret now (some email) (some pw)).1.status = 200 ∧
    (((loginAdmin admins secret now (some email) (some pw)).1.body.get? "data").bind
        (fun d => d.get? "token"))
      = some (.str (tokenRepr (jwtSign a.id a.email secret now))) ∧
    (((loginAdmin admins secret now (some email) (some pw)).1.body.get? "data").bind
        (fun d => (d.get? "admin").bind (fun ad => ad.get? "role")))
      = some (.str a.role) ∧
    (loginAdmin admins secret now (some email) (some pw')).1.status = 401 ∧
    (loginAdmin admins secret now (some email) (some pw')).1.errorCode
      = some (.str "INVALID_CREDENTIALS") := by
  have hcmp : bcryptCompare pw a.passwordHash = true := by
    simp [bcryptCompare, hhash]
  have hcmp' : bcryptCompare pw' a.passwordHash = false := by
    simp only [bcryptCompare, hhash, beq_eq_false_iff_ne, ne_eq]
    intro h
    exact hne (bcryptHash_inj h).symm
  refine ⟨?_, ?_, ?_, ?_, ?_⟩ <;>
    simp [loginAdmin, hem, hpw, hpw', a_hit, hcmp, hcmp', Json.get?,
      HttpResponse.errorCode, errResp, errorBody, adminPublicJson, List.lookup]

/-- C1 witness: the seeded record `admin@x.com` / `Admin123!` logs in with
200 and a token, and the wrong password is rejected with 401
INVALID_CREDENTIALS. -/
theorem C1_witness :
    (loginAdmin [seedAdmin] "s" 0 (some "admin@x.com") (some "Admin123!")).1.status = 200 ∧
    (((loginAdmin [seedAdmin] "s" 0 (some "admin@x.com") (some "Admin123!")).1.body.get?
        "data").bind (fun d => d.get? "token"))
      = some (.str (tokenRepr (jwtSign seedAdmin.id seedAdmin.email "s" 0))) ∧
    (((loginAdmin [seedAdmin] "s" 0 (some "admin@x.com") (some "Admin123!")).1.body.get?
        "data").bind (fun d => (d.get? "admin").bind (fun ad => ad.get? "role")))
      = some (.str seedAdmin.role) ∧
    (loginAdmin [seedAdmin] "s" 0 (some "admin@x.com") (some "wrong")).1.status = 401 ∧
    (loginAdmin [seedAdmin] "s" 0 (some "admin@x.com") (some "wrong")).1.errorCode
      = some (.str "INVALID_CREDENTIALS") :=
  C1_login_matching_and_wrong_password [seedAdmin] "s" 0 seedAdmin
    "admin@x.com" "Admin123!" "wrong" rfl rfl rfl rfl rfl (by decide)

/-! ## C3 -/

/-- C3: for every registration request carrying nonempty email, password and
name whose lower-cased email already resolves to an existing administrator
record, `registerAdmin` fails with 409 and error code ADMIN_EXISTS and
returns the credential store unchanged: no second record is created. -/
theorem C3_register_duplicate_email
    (admins : List Admin) (freshId : String) (now : Nat) (a : Admin)
    (email password name : String) (reqRole : Option String)
    (hdup : findAdminByEmail admins (lowerString email) = some a)
    (hem : email.isEmpty = false) (hpw : password.isEmpty = false)
    (hname : name.isEmpty = false) :
    (registerAdmin admins freshId now (some email) (some password) (some name)
        reqRole).1.status = 409 ∧
    (registerAdmin admins freshId now (some email) (some password) (some name)
        reqRole).1.errorCode = some (.str "ADMIN_EXISTS") ∧
    (registerAdmin admins freshId now (some email) (some password) (some name)
        reqRole).2 = admins := by
  refine ⟨?_, ?_, ?_⟩ <;>
    simp [registerAdmin, hem, hpw, hname, hdup, Json.get?,
      HttpResponse.errorCode, errResp, errorBody, List.lookup]

/-- C3 witness: registering `admin@x.com` again against the seeded store is a
409 ADMIN_EXISTS and leaves the store as it was. -/
theorem C3_witness :
    (registerAdmin [seedAdmin] "n1" 7 (some "Admin@X.com") (some "Other123!")
        (some "Someone") none).1.status = 409 ∧
    (registerAdmin [seedAdmin] "n1" 7 (some "Admin@X.com") (some "Other123!")
        (some "Someone") none).1.errorCode = some (.str "ADMIN_EXISTS") ∧
    (registerAdmin [seedAdmin] "n1" 7 (some "Admin@X.com") (some "Other123!")
        (some "Someone") none).2 = [seedAdmin] :=
  C3_register_duplicate_email [seedAdmin] "n1" 7 seedAdmin
    "Admin@X.com" "Other123!" "Someone" none (by decide) rfl rfl rfl

/-! ## C2 -/

/-- C2: tokens are issued with a fixed 7-day (604800 s) expiry, and the
mandatory authorization middleware rejects, always with status 401: a
well-signed token presented strictly more than 7 days after issuance with
TOKEN_EXPIRED; a token with a bad signature, or a malformed token, with
INVALID_TOKEN; a verified token whose subject id resolves to no administrator
record with ADMIN_NOT_FOUND; and a request with a missing or non-Bearer
`Authorization` header with AUTH_REQUIRED. -/
theorem C2_auth_middleware_rejections :
    (∀ id email secret now, ∃ sig,
       jwtSign id email secret now = .signed ⟨id, email, now, now + 604800⟩ sig) ∧
    (∀ admins id email secret now later, now + 604800 < later →
       authenticateAdmin admins (some secret) later (.bearer (jwtSign id email secret now))
         = .halt (errResp 401 "TOKEN_EXPIRED" "Your session has expired. Please log in again.")) ∧
    (∀ admins secret now p sig, sig ≠ jwtMac secret p →
       authenticateAdmin admins (some secret) now (.bearer (.signed p sig))
         = .halt (errResp 401 "INVALID_TOKEN" "Invalid authentication token.")) ∧
    (∀ admins secret now raw,
       authenticateAdmin admins (some secret) now (.bearer (.malformed raw))
         = .halt (errResp 401 "INVALID_TOKEN" "Invalid authentication token.")) ∧
    (∀ admins id email secret now later, later < now + 604800 →
       findAdminById admins id = none →
       authenticateAdmin admins (some secret) later (.bearer (jwtSign id email secret now))
         = .halt (errResp 401 "ADMIN_NOT_FOUND" "Admin account not found or has been deleted.")) ∧
    (∀ admins secret? now,
       authenticateAdmin admins secret? now .missing
         = .halt (errResp 401 "AUTH_REQUIRED" "Authentication required. Please provide a valid token.")) ∧
    (∀ admins secret? now raw,
       authenticateAdmin admins secret? now (.notBearer raw)
         = .halt (errResp 401 "AUTH_REQUIRED" "Authentication required. Please provide a valid token.")) := by
  refine ⟨?_, ?_, ?_, ?_, ?_, ?_, ?_⟩
  · intro id email secret now
    exact ⟨jwtMac secret ⟨id, email, now, now + 604800⟩, rfl⟩
  · intro admins id email secret now later h
    simp [authenticateAdmin, jwtSign, jwtVerify, Nat.le_of_lt h]
  · intro admins secret now p sig h
    simp [authenticateAdmin, jwtVerify, h]
  · intro admins secret now raw
    simp [authenticateAdmin, jwtVerify]
  · intro admins id email secret now later h hfind
    simp [authenticateAdmin, jwtSign, jwtVerify, Nat.not_le_of_lt h, hfind]
  · intro admins secret? now
    simp [authenticateAdmin]
  · intro admins secret? now raw
    simp [authenticateAdmin]

/-- C2 witness: on concrete inputs — a token issued at time 0 presented at
604801 s, a token with the wrong signature, a malformed token, a fresh token
whose subject is not in the store, and a missing header — the middleware
rejects with TOKEN_EXPIRED, INVALID_TOKEN, INVALID_TOKEN, ADMIN_NOT_FOUND
and AUTH_REQUIRED respectively. -/
theorem C2_witness :
    authenticateAdmin [] (some "s") 604801 (.bearer (jwtSign "a1" "e@x.com" "s" 0))
      = .halt (errResp 401 "TOKEN_EXPIRED" "Your session has expired. Please log in again.") ∧
    authenticateAdmin [] (some "s") 0 (.bearer (.signed ⟨"a1", "e@x.com", 0, 604800⟩ "bad"))
      = .halt (errResp 401 "INVALID_TOKEN" "Invalid authentication token.") ∧
    authenticateAdmin [] (some "s") 0 (.bearer (.malformed "zzz"))
      = .halt (errResp 401 "INVALID_TOKEN" "Invalid authentication token.") ∧
    authenticateAdmin [] (some "s") 1 (.bearer (jwtSign "a1" "e@x.com" "s" 0))
      = .halt (errResp 401 "ADMIN_NOT_FOUND" "Admin account not found or has been deleted.") ∧
    authenticateAdmin [] (some "s") 0 .missing
      = .halt (errResp 401 "AUTH_REQUIRED" "Authentication required. Please provide a valid token.") :=
  ⟨C2_auth_middleware_rejections.2.1 [] "a1" "e@x.com" "s" 0 604801 (by decide),
   C2_auth_middleware_rejections.2.2.1 [] "s" 0 ⟨"a1", "e@x.com", 0, 604800⟩ "bad" (by decide),
   C2_auth_middleware_rejections.2.2.2.1 [] "s" 0 "zzz",
   C2_auth_middleware_rejections.2.2.2.2.1 [] "a1" "e@x.com" "s" 0 1 (by decide) rfl,
   C2_auth_middleware_rejections.2.2.2.2.2.1 [] (some "s") 0⟩

/-! ## C8 -/

/-- C8: for every existing showcase project, `starProject` performs the
storage-level increment of `stats.stars` and returns the post-increment
value; the stored document afterwards carries the incremented counter, a
second call returns the value incremented twice (so two calls from 0 yield
2), and starring a non-existent id returns 404 and changes nothing. -/
theorem C8_star_increment
    (store : List Showcase) (id : String) (p : Showcase)
    (hfind : store.find? (fun x => x.id == id) = some p) :
    (starProject store id).1.status = 200 ∧
    (((starProject store id).1.body.get? "data").bind (fun d => d.get? "stars"))
      = some (.num (p.stats.stars + 1)) ∧
    ((starProject store id).2.find? (fun x => x.id == id))
      = some { p with stats := { p.stats with stars := p.stats.stars + 1 } } ∧
    (((starProject (starProject store id).2 id).1.body.get? "data").bind
        (fun d => d.get? "stars"))
      = some (.num (p.stats.stars + 2)) ∧
    (p.stats.stars = 0 →
      (((starProject (starProject store id).2 id).1.body.get? "data").bind
          (fun d => d.get? "stars"))
        = some (.num 2)) ∧
    (∀ (store₀ : List Showcase) (id₀ : String),
      store₀.find? (fun x => x.id == id₀) = none →
      starProject store₀ id₀ = (errResp 404 "NOT_FOUND" "Project not found.", store₀)) := by
  have hpid : (p.id == id) = true := by
    have h := List.find?_some hfind
    simpa using h
  have hmap : ((starProject store id).2.find? (fun x => x.id == id))
      = some { p with stats := { p.stats with stars := p.stats.stars + 1 } } := by
    simp only [starProject, hfind]
    refine find?_map_replace hfind ?_ ?_ ?_
    · simpa using hpid
    · intro x
      by_cases h : (x.id == p.id) = true
      · right; simp [h]
      · left; simp [h]
    · simp
  refine ⟨?_, ?_, hmap, ?_, ?_, ?_⟩
  · simp [starProject, hfind]
  · simp [starProject, hfind, Json.get?, List.lookup]
  · rw [starProject, hmap]
    simp [Json.get?, List.lookup]
    omega
  · intro h
    rw [starProject, hmap]
    simp [Json.get?, List.lookup, h]
  · intro store₀ id₀ h
    simp [starProject, h]

/-! ## C8 witness -/

/-- C8 witness: starring the concrete project with `stats.stars = 0` returns
1 and, on the store it leaves behind, a second star returns 2; starring an
unknown id on an empty store is a 404. -/
theorem C8_witness :
    (starProject [wShow] "cccccccccccccccccccccccc").1.status = 200 ∧
    (((starProject [wShow] "cccccccccccccccccccccccc").1.body.get? "data").bind
        (fun d => d.get? "stars")) = some (.num 1) ∧
    (((starProject (starProject [wShow] "cccccccccccccccccccccccc").2
        "cccccccccccccccccccccccc").1.body.get? "data").bind
        (fun d => d.get? "stars")) = some (.num 2) ∧
    starProject [] "eeeeeeeeeeeeeeeeeeeeeeee"
      = (errResp 404 "NOT_FOUND" "Project not found.", []) := by
  have h := C8_star_increment [wShow] "cccccccccccccccccccccccc" wShow rfl
  exact ⟨h.1, h.2.1, h.2.2.2.2.1 rfl, h.2.2.2.2.2 [] "eeeeeeeeeeeeeeeeeeeeeeee" rfl⟩

/-! ## C9 -/

/-- The store `getBlogBySlug` leaves behind still resolves the slug, to the
same document with its view counter bumped and its `updatedAt` stamp
refreshed, whenever the user pre-save hooks are no-ops on it (nonempty slug
and readTime). -/
theorem find?_after_view_bump
    (store : List Blog) (now : Nat) (slug : String) (b : Blog)
    (hfind : store.find? (fun x => x.slug == slug && x.published) = some b)
    (hslug : b.slug.isEmpty = false) (hread : b.readTime.isEmpty = false) :
    ((getBlogBySlug store now slug).2.find? (fun x => x.slug == slug && x.published))
      = some { b with
               stats := { b.stats with views := b.stats.views + 1 },
               updatedAt := now } := by
  have hpred : (b.slug == slug && b.published) = true := by
    have h := List.find?_some hfind
    simpa using h
  have hpre : blogApplyPreSave false
      { b with
        stats := { b.stats with views := b.stats.views + 1 }, updatedAt := now }
      = { b with
          stats := { b.stats with views := b.stats.views + 1 }, updatedAt := now } := by
    simp [blogApplyPreSave, hslug, hread]
  simp only [getBlogBySlug, hfind]
  rw [hpre]
  refine find?_map_replace hfind ?_ ?_ ?_
  · simpa using hpred
  · intro x
    by_cases h : (x.id == b.id) = true
    · right; simp [h]
    · left; simp [h]
  · simp

/-- C9 counterexample: refutes the claim as frozen.  The Blog schema has
`timestamps: true`, so the `save` performed by the view-count fetch also
rewrites the serialized `updatedAt` field: at the concrete input, fetching
the published blog (stored with `updatedAt = 3`) at time 100 returns 200 but
leaves a document whose `updatedAt` is 100 — a field other than
`stats.views` changed, contradicting "changes no other field of the
document". -/
theorem C9_counterexample :
    (getBlogBySlug [wBlog] 100 "hello-world").1.status = 200 ∧
    (getBlogBySlug [wBlog] 100 "hello-world").2
      = [{ wBlog with
           stats := { wBlog.stats with views := 1 }, updatedAt := 100 }] ∧
    wBlog.updatedAt = 3 := by
  refine ⟨rfl, by decide, rfl⟩

/-- C9 (amended): for every published blog of a schema-valid store found by
slug, the fetch returns 200 and changes exactly two things, both on that
document alone: `stats.views` increased by one and the `updatedAt` stamp
refreshed by the `timestamps: true` save; every other field and every other
document is unchanged.  A second fetch leaves the counter at plus two (the
GET is not idempotent for the views field); a fetch that misses (unknown
slug or unpublished blog) returns 404 and leaves the store untouched. -/
theorem C9_view_count_frame
    (store : List Blog) (now now₂ : Nat) (slug : String) (b : Blog)
    (hfind : store.find? (fun x => x.slug == slug && x.published) = some b)
    (hwf : blogSchemaWF b = true) :
    (getBlogBySlug store now slug).1.status = 200 ∧
    (getBlogBySlug store now slug).2
      = store.map (fun x => if x.id == b.id then
          { b with
            stats := { b.stats with views := b.stats.views + 1 },
            updatedAt := now } else x) ∧
    (((getBlogBySlug store now slug).1.body.get? "data").bind
        (fun d => (d.get? "stats").bind (fun s => s.get? "views")))
      = some (.num (b.stats.views + 1)) ∧
    ((getBlogBySlug (getBlogBySlug store now slug).2 now₂ slug).2.find?
        (fun x => x.slug == slug && x.published))
      = some { b with
               stats := { b.stats with views := b.stats.views + 2 },
               updatedAt := now₂ } ∧
    (∀ (store₀ : List Blog) (now₀ : Nat) (slug₀ : String),
      store₀.find? (fun x => x.slug == slug₀ && x.published) = none →
      getBlogBySlug store₀ now₀ slug₀
        = (errResp 404 "NOT_FOUND" "Blog post not found.", store₀)) := by
  have hwf' := hwf
  simp only [blogSchemaWF, Bool.and_eq_true, Bool.not_eq_true'] at hwf'
  obtain ⟨⟨hslug, hcontent⟩, hread⟩ := hwf'
  have hpre : ∀ n m, blogApplyPreSave false
      { b with stats := { b.stats with views := n }, updatedAt := m }
      = { b with stats := { b.stats with views := n }, updatedAt := m } := by
    intro n m
    simp [blogApplyPreSave, hslug, hread]
  have h1 : getBlogBySlug store now slug
      = ({ status := 200,
           body := .obj [("success", .bool true),
                         ("data", blogJson { b with
                           stats := { b.stats with views := b.stats.views + 1 },
                           updatedAt := now })] },
         store.map (fun x => if x.id == b.id then
           { b with
             stats := { b.stats with views := b.stats.views + 1 },
             updatedAt := now } else x)) := by
    simp only [getBlogBySlug, hfind]
    rw [hpre]
  have hA := find?_after_view_bump store now slug b hfind hslug hread
  have hB := find?_after_view_bump (getBlogBySlug store now slug).2 now₂ slug
    { b with
      stats := { b.stats with views := b.stats.views + 1 }, updatedAt := now }
    hA hslug hread
  refine ⟨?_, ?_, ?_, ?_, ?_⟩
  · rw [h1]
  · rw [h1]
  · rw [h1]
    simp [Json.get?, blogJson, List.lookup]
  · exact hB
  · intro store₀ now₀ slug₀ h
    simp [getBlogBySlug, h]

/-- C9 witness: fetching the concrete published blog by slug at time 50
returns 200 and leaves it with `views = 1` and `updatedAt = 50`; a second
fetch at time 60 leaves `views = 2` and `updatedAt = 60`; fetching an
unknown slug is a 404 that changes nothing. -/
theorem C9_witness :
    (getBlogBySlug [wBlog] 50 "hello-world").1.status = 200 ∧
    (getBlogBySlug [wBlog] 50 "hello-world").2
      = [{ wBlog with
           stats := { wBlog.stats with views := 1 }, updatedAt := 50 }] ∧
    ((getBlogBySlug (getBlogBySlug [wBlog] 50 "hello-world").2 60 "hello-world").2.find?
        (fun x => x.slug == "hello-world" && x.published))
      = some { wBlog with
               stats := { wBlog.stats with views := 2 }, updatedAt := 60 } ∧
    getBlogBySlug [wBlog] 50 "no-such-slug"
      = (errResp 404 "NOT_FOUND" "Blog post not found.", [wBlog]) := by
  have h := C9_view_count_frame [wBlog] 50 60 "hello-world" wBlog rfl rfl
  exact ⟨h.1, h.2.1, h.2.2.2.1, h.2.2.2.2 [wBlog] 50 "no-such-slug" rfl⟩

/-! ## C6 -/

/-- C6: newsletter subscribe and unsubscribe are idempotent: subscribing an
already-active email returns success (200, `success: true`) and mutates
nothing; unsubscribing an existing active email twice succeeds both times,
the record's status being `unsubscribed` after the first call and the second
call changing nothing; and unsubscribing an email with no record is a 404
NOT_FOUND — an outcome distinct from the 200 already-unsubscribed success. -/
theorem C6_newsletter_idempotence
    (store : List Subscriber) (now now₂ : Nat) (email : String) (s : Subscriber)
    (src? : Option String)
    (hfind : store.find? (fun x => x.email == lowerString email) = some s)
    (hactive : s.status = "active")
    (hne : email.isEmpty = false)
    (hmail : emailRegexMatches email = true) :
    (subscribe store "fresh" now (some email) src?).1.status = 200 ∧
    ((subscribe store "fresh" now (some email) src?).1.body.get? "success")
      = some (.bool true) ∧
    (subscribe store "fresh" now (some email) src?).2 = store ∧
    (unsubscribe store now (some email)).1.status = 200 ∧
    ((unsubscribe store now (some email)).1.body.get? "success") = some (.bool true) ∧
    ((unsubscribe store now (some email)).2.find? (fun x => x.email == lowerString email))
      = some { s with status := "unsubscribed", unsubscribedAt := some now } ∧
    (unsubscribe (unsubscribe store now (some email)).2 now₂ (some email)).1.status = 200 ∧
    ((unsubscribe (unsubscribe store now (some email)).2 now₂ (some email)).1.body.get?
        "success") = some (.bool true) ∧
    (unsubscribe (unsubscribe store now (some email)).2 now₂ (some email)).2
      = (unsubscribe store now (some email)).2 ∧
    (∀ (store₀ : List Subscriber) (e : String), e.isEmpty = false →
      store₀.find? (fun x => x.email == lowerString e) = none →
      unsubscribe store₀ now (some e)
        = (errResp 404 "NOT_FOUND" "Email not found in our newsletter list.", store₀)) := by
  have hemail : (s.email == lowerString email) = true := by
    have h := List.find?_some hfind
    simpa using h
  have hstat : (s.status == "active") = true := by simp [hactive]
  have hstat' : (s.status == "unsubscribed") = false := by simp [hactive]
  have hu1 : unsubscribe store now (some email)
      = ({ status := 200, body := msgBody "Successfully unsubscribed from newsletter." },
         store.map (fun x => if x.id == s.id then
           { s with status := "unsubscribed", unsubscribedAt := some now } else x)) := by
    simp only [unsubscribe, hne, Bool.false_eq_true, if_false, hfind, hstat']
  have hfind₂ : ((unsubscribe store now (some email)).2.find?
      (fun x => x.email == lowerString email))
      = some { s with status := "unsubscribed", unsubscribedAt := some now } := by
    rw [hu1]
    refine find?_map_replace hfind ?_ ?_ ?_
    · simpa using hemail
    · intro x
      by_cases h : (x.id == s.id) = true
      · right; simp [h]
      · left; simp [h]
    · simp
  refine ⟨?_, ?_, ?_, ?_, ?_, hfind₂, ?_, ?_, ?_, ?_⟩
  · simp [subscribe, hne, hmail, hfind, hstat]
  · simp [subscribe, hne, hmail, hfind, hstat, msgBody, Json.get?, List.lookup]
  · simp [subscribe, hne, hmail, hfind, hstat]
  · rw [hu1]
  · rw [hu1]
    simp [msgBody, Json.get?, List.lookup]
  · generalize hS : (unsubscribe store now (some email)).2 = S at hfind₂ ⊢
    simp only [unsubscribe, hne, Bool.false_eq_true, if_false, hfind₂]
    simp
  · generalize hS : (unsubscribe store now (some email)).2 = S at hfind₂ ⊢
    simp only [unsubscribe, hne, Bool.false_eq_true, if_false, hfind₂]
    simp [msgBody, Json.get?, List.lookup]
  · generalize hS : (unsubscribe store now (some email)).2 = S at hfind₂ ⊢
    simp only [unsubscribe, hne, Bool.false_eq_true, if_false, hfind₂]
    simp
  · intro store₀ e hel h
    simp [unsubscribe, hel, h]

/-- C6 witness: on a one-record store with the active subscriber
`user@mail.com`, subscribing again succeeds and changes nothing;
unsubscribing twice succeeds both times, the record being `unsubscribed`
after the first call and the second changing nothing; unsubscribing an
unknown email is a 404. -/
theorem C6_witness :
    (subscribe [wSub] "fresh" 5 (some "user@mail.com") none).1.status = 200 ∧
    (subscribe [wSub] "fresh" 5 (some "user@mail.com") none).2 = [wSub] ∧
    (unsubscribe [wSub] 5 (some "user@mail.com")).1.status = 200 ∧
    ((unsubscribe [wSub] 5 (some "user@mail.com")).2.find?
        (fun x => x.email == lowerString "user@mail.com"))
      = some { wSub with status := "unsubscribed", unsubscribedAt := some 5 } ∧
    (unsubscribe (unsubscribe [wSub] 5 (some "user@mail.com")).2 6
        (some "user@mail.com")).1.status = 200 ∧
    (unsubscribe (unsubscribe [wSub] 5 (some "user@mail.com")).2 6
        (some "user@mail.com")).2 = (unsubscribe [wSub] 5 (some "user@mail.com")).2 ∧
    unsubscribe [] 5 (some "ghost@mail.com")
      = (errResp 404 "NOT_FOUND" "Email not found in our newsletter list.", []) := by
  have h := C6_newsletter_idempotence [wSub] 5 6 "user@mail.com" wSub none
    (by decide) rfl rfl (by decide)
  exact ⟨h.1, h.2.2.1, h.2.2.2.1, h.2.2.2.2.2.1, h.2.2.2.2.2.2.1,
    h.2.2.2.2.2.2.2.2.1, h.2.2.2.2.2.2.2.2.2 [] "ghost@mail.com" rfl rfl⟩

/-! ## C10 -/

/-- C10: for every unpublished Blog or Showcase document (with a unique slug
in its store), the public get-by-id route returns the full document with 200
for any `Authorization` header whatsoever — it applies no `published` filter
and never consults the header — while the get-by-slug handler for the same
document returns 404 (and, for blogs, changes no state). -/
theorem C10_unpublished_reachable_by_id
    (header : AuthHeader) (now : Nat) (bstore : List Blog) (sstore : List Showcase)
    (b : Blog) (p : Showcase)
    (hb : bstore.find? (fun x => x.id == b.id) = some b)
    (hbid : isMongoIdStr b.id = true) (hbpub : b.published = false)
    (hbuniq : ∀ x ∈ bstore, x.slug = b.slug → x = b)
    (hp : sstore.find? (fun x => x.id == p.id) = some p)
    (hpid : isMongoIdStr p.id = true) (hppub : p.published = false)
    (hpuniq : ∀ x ∈ sstore, x.slug = p.slug → x = p) :
    blogGetByIdRoute header bstore b.id
      = { status := 200, body := .obj [("success", .bool true), ("data", blogJson b)] } ∧
    (getBlogBySlug bstore now b.slug).1 = errResp 404 "NOT_FOUND" "Blog post not found." ∧
    (getBlogBySlug bstore now b.slug).2 = bstore ∧
    showcaseGetByIdRoute header sstore p.id
      = { status := 200, body := .obj [("success", .bool true), ("data", showcaseJson p)] } ∧
    getShowcaseBySlug sstore p.slug = errResp 404 "NOT_FOUND" "Project not found." := by
  have hbnone : bstore.find? (fun x => x.slug == b.slug && x.published) = none := by
    rw [List.find?_eq_none]
    intro x hx
    simp only [Bool.and_eq_true, beq_iff_eq, not_and]
    intro hxs
    rw [hbuniq x hx hxs, hbpub]
    simp
  have hpnone : sstore.find? (fun x => x.slug == p.slug && x.published) = none := by
    rw [List.find?_eq_none]
    intro x hx
    simp only [Bool.and_eq_true, beq_iff_eq, not_and]
    intro hxs
    rw [hpuniq x hx hxs, hppub]
    simp
  refine ⟨?_, ?_, ?_, ?_, ?_⟩
  · simp [blogGetByIdRoute, hbid, getBlogById, hb]
  · simp [getBlogBySlug, hbnone]
  · simp [getBlogBySlug, hbnone]
  · simp [showcaseGetByIdRoute, hpid, getShowcaseById, hp]
  · simp [getShowcaseBySlug, hpnone]

/-- C10 witness: the concrete unpublished blog and showcase fixtures are
served in full by the public get-by-id routes with no token in the request,
while their slugs return 404. -/
theorem C10_witness :
    blogGetByIdRoute .missing [wBlogUnpub] wBlogUnpub.id
      = { status := 200,
          body := .obj [("success", .bool true), ("data", blogJson wBlogUnpub)] } ∧
    (getBlogBySlug [wBlogUnpub] 0 wBlogUnpub.slug).1
      = errResp 404 "NOT_FOUND" "Blog post not found." ∧
    showcaseGetByIdRoute .missing [wShow] wShow.id
      = { status := 200,
          body := .obj [("success", .bool true), ("data", showcaseJson wShow)] } ∧
    getShowcaseBySlug [wShow] wShow.slug
      = errResp 404 "NOT_FOUND" "Project not found." := by
  have h := C10_unpublished_reachable_by_id .missing 0 [wBlogUnpub] [wShow] wBlogUnpub wShow
    rfl (by decide) rfl
    (by intro x hx hs; simpa using hx)
    rfl (by decide) rfl
    (by intro x hx hs; simpa using hx)
  exact ⟨h.1, h.2.1, h.2.2.2.1, h.2.2.2.2⟩

/-! ## C7 -/

/-- Inserting into the sort keeps one more element. -/
theorem length_insertByPubDate (x : Blog) (l : List Blog) :
    (insertByPubDate x l).length = l.length + 1 := by
  induction l with
  | nil => rfl
  | cons y ys ih =>
    by_cases h : blogSortLE x y = true <;> simp [insertByPubDate, h, ih]

/-- The sort step is length-preserving. -/
theorem length_sortBlogs (l : List Blog) : (sortBlogs l).length = l.length := by
  induction l with
  | nil => rfl
  | cons x xs ih => simp [sortBlogs, length_insertByPubDate, ih]

/-- C7: for every list request against the filtered collection of
`N = |filter|` documents, `getBlogs` serves the sorted filtered collection
with `(page-1)*limit` documents skipped, returns `min limit (N - skip)`
items (hence at most `limit`), reports `total = N` from the same filter,
computes `hasMore = skip + returned < total`, and surfaces total, page and
limit as the `X-Total-Count` / `X-Page` / `X-Limit` headers; in particular
page 1 with `limit < N` returns exactly `limit` items with `hasMore = true`,
and the final page (`skip < N ≤ page*limit`) has `hasMore = false`. -/
theorem C7_pagination (store : List Blog) (q : BlogQuery) :
    (((getBlogs store q).body.get? "data").bind (fun d => d.get? "posts"))
      = some (.arr ((((sortBlogs (store.filter (blogMatches q))).drop
          ((q.page - 1) * q.limit)).take q.limit).map blogListJson)) ∧
    ((((sortBlogs (store.filter (blogMatches q))).drop
        ((q.page - 1) * q.limit)).take q.limit).length
      = min q.limit ((store.filter (blogMatches q)).length - (q.page - 1) * q.limit)) ∧
    (((getBlogs store q).body.get? "data").bind (fun d => d.get? "total"))
      = some (.num (store.filter (blogMatches q)).length) ∧
    (((getBlogs store q).body.get? "data").bind (fun d => d.get? "hasMore"))
      = some (.bool (decide ((q.page - 1) * q.limit +
          min q.limit ((store.filter (blogMatches q)).length - (q.page - 1) * q.limit)
            < (store.filter (blogMatches q)).length))) ∧
    (getBlogs store q).headers
      = [("X-Total-Count", toString (store.filter (blogMatches q)).length),
         ("X-Page", toString q.page), ("X-Limit", toString q.limit)] ∧
    (q.page = 1 → q.limit < (store.filter (blogMatches q)).length →
      ((((sortBlogs (store.filter (blogMatches q))).drop
          ((q.page - 1) * q.limit)).take q.limit).length = q.limit ∧
       (((getBlogs store q).body.get? "data").bind (fun d => d.get? "hasMore"))
         = some (.bool true))) ∧
    ((q.page - 1) * q.limit < (store.filter (blogMatches q)).length →
      (store.filter (blogMatches q)).length ≤ q.page * q.limit →
      (((getBlogs store q).body.get? "data").bind (fun d => d.get? "hasMore"))
        = some (.bool false)) := by
  have hlen : ((((sortBlogs (store.filter (blogMatches q))).drop
      ((q.page - 1) * q.limit)).take q.limit)).length
      = min q.limit ((store.filter (blogMatches q)).length - (q.page - 1) * q.limit) := by
    simp [List.length_take, List.length_drop, length_sortBlogs]
  refine ⟨?_, hlen, ?_, ?_, ?_, ?_, ?_⟩
  · simp [getBlogs, Json.get?, List.lookup]
  · simp [getBlogs, Json.get?, List.lookup]
  · simp [getBlogs, Json.get?, List.lookup, hlen]
  · simp [getBlogs]
  · intro h1 h2
    have h0 : (q.page - 1) * q.limit = 0 := by
      rw [h1]
      simp
    have hm : min q.limit ((store.filter (blogMatches q)).length - (q.page - 1) * q.limit)
        = q.limit := by
      rw [h0, Nat.sub_zero]
      exact Nat.min_eq_left (Nat.le_of_lt h2)
    refine ⟨?_, ?_⟩
    · rw [hlen, hm]
    · simp [getBlogs, Json.get?, List.lookup, hlen]
      rw [hm, h0]
      omega
  · intro h1 h2
    have hm : min q.limit ((store.filter (blogMatches q)).length - (q.page - 1) * q.limit)
        = (store.filter (blogMatches q)).length - (q.page - 1) * q.limit := by
      refine Nat.min_eq_right ?_
      cases hpq : q.page with
      | zero =>
        rw [hpq] at h1 h2
        exact absurd (Nat.lt_of_lt_of_le h1 h2) (by simp)
      | succ pp =>
        rw [hpq] at h2
        rw [Nat.succ_mul] at h2
        simp only [Nat.add_sub_cancel]
        omega
    simp [getBlogs, Json.get?, List.lookup, hlen]
    rw [hm]
    generalize hsk : (q.page - 1) * q.limit = sk at h1 ⊢
    omega

/-- C7 witness: on a store of three published blogs, page 1 with limit 2
returns exactly 2 items with `hasMore = true`, and page 2 (the final page)
reports `hasMore = false`. -/
theorem C7_witness :
    ((((sortBlogs ([wBlog, wBlog2, wBlog3].filter
        (blogMatches { page := 1, limit := 2 }))).drop 0).take 2).length = 2 ∧
     (((getBlogs [wBlog, wBlog2, wBlog3] { page := 1, limit := 2 }).body.get? "data").bind
        (fun d => d.get? "hasMore")) = some (.bool true)) ∧
    (((getBlogs [wBlog, wBlog2, wBlog3] { page := 2, limit := 2 }).body.get? "data").bind
        (fun d => d.get? "hasMore")) = some (.bool false) :=
  ⟨(C7_pagination [wBlog, wBlog2, wBlog3] { page := 1, limit := 2 }).2.2.2.2.2.1
      rfl (by decide),
   (C7_pagination [wBlog, wBlog2, wBlog3] { page := 2, limit := 2 }).2.2.2.2.2.2
      (by decide) (by decide)⟩

/-! ## C4 -/

/-- Every bcrypt digest starts with the scheme prefix. -/
theorem bcryptHash_head (p : String) : (bcryptHash p).data.head? = some 'b' := by
  simp [bcryptHash, String.data_append, List.head?_append]

/-- Every rendered signed token starts with the token prefix. -/
theorem tokenRepr_signed_head (p : JwtPayload) (sig : String) :
    (tokenRepr (.signed p sig)).data.head? = some 'j' := by
  simp [tokenRepr, String.data_append, List.head?_append]

/-- A bcrypt digest is never a rendered signed token. -/
theorem bcryptHash_ne_tokenRepr (pw : String) (p : JwtPayload) (sig : String) :
    bcryptHash pw ≠ tokenRepr (.signed p sig) := by
  apply ne_of_head_ne
  rw [bcryptHash_head, tokenRepr_signed_head]
  simp

/-- C4: no serialization of an administrator record carries the password
hash: the schema `toJSON` transform deletes the `passwordHash` key; the
current-profile, login and register success bodies contain no `passwordHash`
key anywhere and their string leaves are exactly the public fields (plus the
token for login), so the stored bcrypt digest — and hence the plaintext
password — appears in none of them as long as it does not literally equal
one of the public fields. -/
theorem C4_password_hash_never_serialized :
    (∀ a : Admin, (adminToJSON a).hasKey "passwordHash" = false) ∧
    (∀ a : Admin,
      (getCurrentAdmin (some a)).body.hasKey "passwordHash" = false ∧
      (getCurrentAdmin (some a)).body.leafStrings = [a.id, a.email, a.name, a.role]) ∧
    (∀ (admins : List Admin) (secret : String) (now : Nat) (email pw : String) (a : Admin),
      findAdminByEmail admins (lowerString email) = some a →
      a.passwordHash = bcryptHash pw →
      email.isEmpty = false → pw.isEmpty = false →
      (loginAdmin admins secret now (some email) (some pw)).1.body.hasKey "passwordHash"
          = false ∧
      (loginAdmin admins secret now (some email) (some pw)).1.body.leafStrings
          = [tokenRepr (jwtSign a.id a.email secret now), a.id, a.email, a.name, a.role] ∧
      (a.passwordHash ∉ ([a.id, a.email, a.name, a.role] : List String) →
        a.passwordHash ∉
          (loginAdmin admins secret now (some email) (some pw)).1.body.leafStrings)) ∧
    (∀ (admins : List Admin) (freshId : String) (now : Nat) (email pw name role : String),
      findAdminByEmail admins (lowerString email) = none →
      email.isEmpty = false → pw.isEmpty = false → name.isEmpty = false →
      role.isEmpty = false →
      (registerAdmin admins freshId now (some email) (some pw) (some name)
          (some role)).1.body.hasKey "passwordHash" = false ∧
      (registerAdmin admins freshId now (some email) (some pw) (some name)
          (some role)).1.body.leafStrings
        = ["Admin registered successfully", freshId, lowerString email, name, role] ∧
      (bcryptHash pw ∉ ([freshId, lowerString email, name, role] : List String) →
        bcryptHash pw ∉
          (registerAdmin admins freshId now (some email) (some pw) (some name)
            (some role)).1.body.leafStrings)) := by
  refine ⟨?_, ?_, ?_, ?_⟩
  · intro a
    cases h : a.lastLoginAt <;>
      simp [adminToJSON, h, Json.hasKey, Json.hasKeyFields]
  · intro a
    constructor
    · cases h : a.lastLoginAt <;>
        simp [getCurrentAdmin, h, Json.hasKey, Json.hasKeyFields]
    · cases h : a.lastLoginAt <;>
        simp [getCurrentAdmin, h, Json.leafStrings, Json.leafStringsFields]
  · intro admins secret now email pw a a_hit hhash hem hpw
    have hcmp : bcryptCompare pw a.passwordHash = true := by
      simp [bcryptCompare, hhash]
    have hleaf : (loginAdmin admins secret now (some email) (some pw)).1.body.leafStrings
        = [tokenRepr (jwtSign a.id a.email secret now), a.id, a.email, a.name, a.role] := by
      simp [loginAdmin, hem, hpw, a_hit, hcmp, adminPublicJson,
        Json.leafStrings, Json.leafStringsFields]
    refine ⟨?_, hleaf, ?_⟩
    · simp [loginAdmin, hem, hpw, a_hit, hcmp, adminPublicJson,
        Json.hasKey, Json.hasKeyFields]
    · intro hnin hmem
      rw [hleaf] at hmem
      simp only [List.mem_cons, List.not_mem_nil, or_false] at hmem
      rcases hmem with h | h
      · exact bcryptHash_ne_tokenRepr pw _ _ (hhash ▸ h)
      · simp only [List.mem_cons, List.not_mem_nil, or_false, not_or] at hnin
        rcases h with h | h | h | h
        · exact hnin.1 h
        · exact hnin.2.1 h
        · exact hnin.2.2.1 h
        · exact hnin.2.2.2 h
  · intro admins freshId now email pw name role hmiss hem hpw hname hrole
    have hleaf : (registerAdmin admins freshId now (some email) (some pw) (some name)
        (some role)).1.body.leafStrings
        = ["Admin registered successfully", freshId, lowerString email, name, role] := by
      simp [registerAdmin, hem, hpw, hname, hrole, hmiss, adminPublicJson,
        Json.leafStrings, Json.leafStringsFields]
    refine ⟨?_, hleaf, ?_⟩
    · simp [registerAdmin, hem, hpw, hname, hrole, hmiss, adminPublicJson,
        Json.hasKey, Json.hasKeyFields]
    · intro hnin hmem
      rw [hleaf] at hmem
      simp only [List.mem_cons, List.not_mem_nil, or_false] at hmem
      rcases hmem with h | h
      · refine ne_of_head_ne ?_ h
        rw [bcryptHash_head]
        simp
      · simp only [List.mem_cons, List.not_mem_nil, or_false, not_or] at hnin
        rcases h with h | h | h | h
        · exact hnin.1 h
        · exact hnin.2.1 h
        · exact hnin.2.2.1 h
        · exact hnin.2.2.2 h

/-- C4 witness: for the seeded admin, the profile body, the login body and a
register body carry no `passwordHash` key, and the stored digest is not
among the login body leaves. -/
theorem C4_witness :
    (adminToJSON seedAdmin).hasKey "passwordHash" = false ∧
    (getCurrentAdmin (some seedAdmin)).body.hasKey "passwordHash" = false ∧
    (loginAdmin [seedAdmin] "s" 0 (some "admin@x.com")
        (some "Admin123!")).1.body.hasKey "passwordHash" = false ∧
    seedAdmin.passwordHash ∉
      (loginAdmin [seedAdmin] "s" 0 (some "admin@x.com")
        (some "Admin123!")).1.body.leafStrings ∧
    (registerAdmin [] "n1" 7 (some "new@x.com") (some "Pw123!")
        (some "New Admin") (some "admin")).1.body.hasKey "passwordHash" = false := by
  have h := C4_password_hash_never_serialized
  have hlog := h.2.2.1 [seedAdmin] "s" 0 "admin@x.com" "Admin123!" seedAdmin
    rfl rfl rfl rfl
  have hreg := h.2.2.2 [] "n1" 7 "new@x.com" "Pw123!" "New Admin" "admin"
    rfl rfl rfl rfl rfl
  exact ⟨h.1 seedAdmin, (h.2.1 seedAdmin).1, hlog.1, hlog.2.2 (by decide), hreg.1⟩

/-! ## C5 -/

/-- On a first save (title counts as modified) the slug hook always assigns
the slugified title. -/
theorem blogApplyPreSave_slug_true (d : Blog) :
    (blogApplyPreSave true d).slug = slugifyLowerStrict d.title := by
  by_cases h : (d.readTime.isEmpty && !d.content.isEmpty) = true <;>
    simp [blogApplyPreSave, h]

/-- The pre-save hooks never change the title. -/
theorem blogApplyPreSave_title (m : Bool) (d : Blog) :
    (blogApplyPreSave m d).title = d.title := by
  by_cases h1 : (d.slug.isEmpty || m) = true <;>
  by_cases h2 : (d.readTime.isEmpty && !d.content.isEmpty) = true <;>
    simp [blogApplyPreSave, h1, h2]

/-- C5 (status: the Resource part is a code bug): blog creation assigns the
slugified title as the slug; a blog title update re-derives the slug from
the new title and the old slug stops resolving; but for Resource creation
the collision-retry suffix does not survive: the controller computes the
first free candidate (`gm-1` in the concrete run), then the pre-save hook
regenerates the slug from the title (the title counts as modified on a new
document), restoring the colliding `gm`, and the unique slug index rejects
the insert — 500 and no document created, instead of a 201 with `gm-1`. -/
theorem C5_slug_generation :
    (∀ (store : List Blog) (freshId : String) (now : Nat) (draft : Blog),
      (store.any (fun x => x.slug == slugifyLowerStrict draft.title)) = false →
      (createBlog store freshId now draft).1.status = 201 ∧
      ∃ b, (createBlog store freshId now draft).2 = store ++ [b] ∧
        b.slug = slugifyLowerStrict draft.title ∧ b.title = draft.title) ∧
    (∀ (store : List Blog) (id : String) (now nowf : Nat) (u : BlogUpdate)
        (b : Blog) (t : String),
      store.find? (fun x => x.id == id) = some b →
      t.isEmpty = false →
      (store.any (fun x => x.id != b.id && x.slug == slugifyLowerStrict t)) = false →
      (∀ x ∈ store, x.slug = b.slug → x = b) →
      slugifyLowerStrict t ≠ b.slug →
      (updateBlog store id now { u with title := some t }).1.status = 200 ∧
      (∃ b₁, ((updateBlog store id now { u with title := some t }).2.find?
          (fun x => x.id == id)) = some b₁ ∧
        b₁.slug = slugifyLowerStrict t) ∧
      (getBlogBySlug (updateBlog store id now { u with title := some t }).2
          nowf b.slug).1
        = errResp 404 "NOT_FOUND" "Blog post not found.") ∧
    findFreeSlug ["gm"] "gm" = "gm-1" ∧
    (resourceApplyPreSave true { id := "r2", title := "GM", slug := "gm-1" }).slug = "gm" ∧
    createResource [wResource] "r2" wResourceDraft
      = (errResp 500 "CREATE_ERROR" "Failed to create resource.", [wResource]) := by
  refine ⟨?_, ?_, rfl, rfl, rfl⟩
  · intro store freshId now draft hno
    have hslug : (blogApplyPreSave true
        { draft with id := freshId, createdAt := now, updatedAt := now }).slug
        = slugifyLowerStrict draft.title := by
      simpa using blogApplyPreSave_slug_true
        { draft with id := freshId, createdAt := now, updatedAt := now }
    have htitle : (blogApplyPreSave true
        { draft with id := freshId, createdAt := now, updatedAt := now }).title
        = draft.title := by
      simpa using blogApplyPreSave_title true
        { draft with id := freshId, createdAt := now, updatedAt := now }
    have hcond : (store.any
        (fun x => x.slug == (blogApplyPreSave true
          { draft with id := freshId, createdAt := now, updatedAt := now }).slug))
        = false := by
      rw [hslug]
      simpa using hno
    refine ⟨?_, ⟨blogApplyPreSave true
      { draft with id := freshId, createdAt := now, updatedAt := now }, ?_, hslug, htitle⟩⟩
    · simp only [createBlog, hcond, Bool.false_eq_true, if_false]
    · simp only [createBlog, hcond, Bool.false_eq_true, if_false]
  · intro store id now nowf u b t hfind htne hno huniq hnewne
    have hbid : (b.id == id) = true := by
      have h := List.find?_some hfind
      simpa using h
    have hcond : (store.any (fun x => x.id != b.id &&
        x.slug == ({ applyBlogUpdate
          { u with title := some t, slug := some (slugifyLowerStrict t) } b with
          updatedAt := now }).slug))
        = false := by
      simpa [applyBlogUpdate] using hno
    have hmain : updateBlog store id now { u with title := some t }
        = ({ status := 200,
             body := .obj [("success", .bool true),
                           ("data", blogJson { applyBlogUpdate
                             { u with
                               title := some t,
                               slug := some (slugifyLowerStrict t) } b with
                             updatedAt := now }),
                           ("message", .str "Blog post updated successfully")] },
           store.map (fun x => if x.id == b.id then
             { applyBlogUpdate
               { u with
                 title := some t,
                 slug := some (slugifyLowerStrict t) } b with
               updatedAt := now } else x)) := by
      simp only [updateBlog, htne, Bool.false_eq_true, if_false, hfind, hcond]
    have hfind₂ : ((updateBlog store id now { u with title := some t }).2.find?
        (fun x => x.id == id))
        = some { applyBlogUpdate
            { u with title := some t, slug := some (slugifyLowerStrict t) } b with
            updatedAt := now } := by
      rw [hmain]
      refine find?_map_replace hfind ?_ ?_ ?_
      · simpa [applyBlogUpdate] using hbid
      · intro x
        by_cases h : (x.id == b.id) = true
        · right; simp [h]
        · left; simp [h]
      · simp
    have hnone : ((updateBlog store id now { u with title := some t }).2.find?
        (fun x => x.slug == b.slug && x.published)) = none := by
      rw [hmain]
      rw [List.find?_eq_none]
      intro y hy
      rcases List.mem_map.mp hy with ⟨x, hx, rfl⟩
      by_cases hxid : (x.id == b.id) = true
      · simp only [hxid, if_true, Bool.and_eq_true, beq_iff_eq, not_and]
        intro hs
        exact absurd hs (by simpa [applyBlogUpdate] using hnewne)
      · simp only [hxid, Bool.false_eq_true, if_false, Bool.and_eq_true, beq_iff_eq, not_and]
        intro hs
        have hxb := huniq x hx hs
        rw [hxb] at hxid
        simp at hxid
    refine ⟨?_, ⟨{ applyBlogUpdate
        { u with title := some t, slug := some (slugifyLowerStrict t) } b with
        updatedAt := now },
      hfind₂, rfl⟩, ?_⟩
    · rw [hmain]
    · simp [getBlogBySlug, hnone]

/-- C5 witness: creating a blog from a concrete draft assigns the slugified
title; updating the title of the concrete blog re-derives the slug and the
old slug returns 404; and the concrete colliding resource creation fails
with 500 instead of inserting `gm-1`. -/
theorem C5_witness :
    ((createBlog [] "nb1" 7 wBlogDraft).1.status = 201 ∧
     ∃ b, (createBlog [] "nb1" 7 wBlogDraft).2 = [] ++ [b] ∧
       b.slug = slugifyLowerStrict wBlogDraft.title ∧ b.title = wBlogDraft.title) ∧
    ((updateBlog [wBlog] wBlog.id 7 { title := some "New Title" }).1.status = 200 ∧
     (∃ b₁, ((updateBlog [wBlog] wBlog.id 7 { title := some "New Title" }).2.find?
        (fun x => x.id == wBlog.id)) = some b₁ ∧
        b₁.slug = slugifyLowerStrict "New Title") ∧
     (getBlogBySlug (updateBlog [wBlog] wBlog.id 7 { title := some "New Title" }).2
        8 wBlog.slug).1 = errResp 404 "NOT_FOUND" "Blog post not found.") ∧
    createResource [wResource] "r2" wResourceDraft
      = (errResp 500 "CREATE_ERROR" "Failed to create resource.", [wResource]) := by
  have h := C5_slug_generation
  refine ⟨h.1 [] "nb1" 7 wBlogDraft rfl, ?_, h.2.2.2.2⟩
  exact h.2.1 [wBlog] wBlog.id 7 8 {} wBlog "New Title" rfl rfl (by decide)
    (by
      intro x hx _
      simpa using hx)
    (by decide)

end Web3Backend
